import Mathlib

/-
Verification development for the email-intelligence pipeline
(trickl/email-manager-agent, backend under email-intelligence/backend/app).

Shallow embedding conventions:
- Python strings are modelled as Lean String / List Char; str.strip(),
  str.lower() and str.casefold() are modelled on ASCII (all constants that
  the claims exercise are ASCII).
- Timestamps (datetime) are modelled as Nat seconds since the epoch;
  dates are carried as their ISO-8601 rendering (date.isoformat()).
- SQL tables are modelled as Lean lists of row structures; an UPDATE is a
  List.map that rewrites the matching rows in place.
- Fallible code (raising Python exceptions) returns Option.
-/

namespace EmailIntel

/-- Python str whitespace test, restricted to the ASCII whitespace class
(space, tab, newline, carriage return, vertical tab, form feed). -/
def pyWs (c : Char) : Bool :=
  c = ' ' || c = '\t' || c = '\n' || c = '\r' || c.toNat = 11 || c.toNat = 12

/-- Python str.strip() on a character list (ASCII whitespace). -/
def pyStrip (cs : List Char) : List Char :=
  ((cs.dropWhile pyWs).reverse.dropWhile pyWs).reverse

/-- ASCII lower-casing of one character; models str.lower() / str.casefold()
on the ASCII inputs the claims exercise. -/
def lowerChar (c : Char) : Char :=
  if 'A' ≤ c ∧ c ≤ 'Z' then Char.ofNat (c.toNat + 32) else c

/-- ASCII lower-casing of a character list. -/
def lowerStr (cs : List Char) : List Char := cs.map lowerChar

/-- ASCII decimal digit test. -/
def isDigitChar (c : Char) : Bool := '0' ≤ c && c ≤ '9'

/- ------------------------------------------------------------------
app/utils/subject.py
------------------------------------------------------------------ -/

/-- One application of RE_PREFIX.sub on an already lower-cased string.
The compiled pattern is anchored at the string start (caret, no MULTILINE),
so re.sub can remove at most the single leading reply/forward marker:
after the first replacement the scanner resumes past the match and the
caret can never match again. Alternatives are tried in order
(re:, fwd:, fw:), each followed by greedy whitespace. -/
def subjectMarkerSub (cs : List Char) : List Char :=
  if cs.take 3 = ['r', 'e', ':'] then (cs.drop 3).dropWhile pyWs
  else if cs.take 4 = ['f', 'w', 'd', ':'] then (cs.drop 4).dropWhile pyWs
  else if cs.take 3 = ['f', 'w', ':'] then (cs.drop 3).dropWhile pyWs
  else cs

/-- normalize_subject from app/utils/subject.py: falsy subjects map to None;
otherwise strip, lower-case, and apply RE_PREFIX.sub once (anchored). -/
def normalize_subject (subject : Option String) : Option String :=
  match subject with
  | none => none
  | some s =>
    if s = "" then none
    else some (String.mk (subjectMarkerSub (lowerStr (pyStrip s.data))))

/- ------------------------------------------------------------------
app/clustering/pipeline.py : _sample_count and _cluster_id
app/labeling/incremental_pipeline.py : _cluster_id
------------------------------------------------------------------ -/

/-- sample_count from app/clustering/pipeline.py (_sample_count):
branch order is greater than 50, then 10..50, then 5..10, else 1. -/
def sample_count (cluster_size : Nat) : Nat :=
  if 50 < cluster_size then 4
  else if 10 ≤ cluster_size ∧ cluster_size ≤ 50 then 3
  else if 5 ≤ cluster_size ∧ cluster_size ≤ 10 then 2
  else 1

/-- Deterministic cluster id of app/clustering/pipeline.py (_cluster_id).
uuid5url abstracts uuid.uuid5(uuid.NAMESPACE_URL, key); the similarity
threshold argument is the string the Python f-string renders for the
float (repr, e.g. 0.85 renders as the four characters 0.85). -/
def cluster_id_bulk (uuid5url : String → String)
    (seed_gmail_message_id similarity_threshold label_version : String) : String :=
  uuid5url ("cluster:" ++ seed_gmail_message_id ++ ":" ++ similarity_threshold
    ++ ":" ++ label_version)

/-- Deterministic cluster id of app/labeling/incremental_pipeline.py
(_cluster_id); textually the same construction as the bulk pipeline. -/
def cluster_id_incremental (uuid5url : String → String)
    (seed_gmail_message_id similarity_threshold label_version : String) : String :=
  uuid5url ("cluster:" ++ seed_gmail_message_id ++ ":" ++ similarity_threshold
    ++ ":" ++ label_version)

/- ------------------------------------------------------------------
app/analysis/payments/extractor.py : _parse_amount, _normalize_vendor_key,
_compute_fingerprint
------------------------------------------------------------------ -/

/-- Nonnegative decimal number: value is num divided by ten to the scale.
Models the decimal.Decimal values produced by _parse_amount (which only
builds them from digit strings of the shape digits or digits.digits). -/
structure PyDec where
  num : Nat
  scale : Nat
  deriving DecidableEq, Repr

/-- Numeric value of a digit list (most significant first). -/
def digitsToNat (ds : List Char) : Nat :=
  ds.foldl (fun acc c => acc * 10 + (c.toNat - '0'.toNat)) 0

/-- Build a PyDec from a matched numeric token (digits with at most one
dot followed by at least one digit), as Decimal(m.group(0)) would. -/
def decOfToken (intPart fracPart : List Char) : PyDec :=
  { num := digitsToNat (intPart ++ fracPart), scale := fracPart.length }

/-- First match of the regex for one or more digits optionally followed by
a dot and one or more digits: scan to the first digit, take the maximal
digit run, then greedily take a dot plus a nonempty digit run if present. -/
def firstNumericToken : List Char → Option (List Char × List Char)
  | [] => none
  | c :: rest =>
    if isDigitChar c then
      let s := List.span isDigitChar (c :: rest)
      match s.2 with
      | '.' :: r3 =>
        let f := List.span isDigitChar r3
        if f.1 = [] then some (s.1, []) else some (s.1, f.1)
      | _ => some (s.1, [])
    else firstNumericToken rest

/-- parse_amount from app/analysis/payments/extractor.py (_parse_amount),
string branch (the claims only exercise string inputs; the numeric branch
converts int/float/Decimal verbatim). Steps: strip; empty gives None;
delete currency symbols; if a comma is present and no dot, turn commas
into dots; delete remaining commas; extract the first numeric token. -/
def parse_amount (value : Option String) : Option PyDec :=
  match value with
  | none => none
  | some v =>
    let raw0 := pyStrip v.data
    if raw0 = [] then none
    else
      let raw1 := raw0.filter (fun c => ¬ (c = '£' ∨ c = '€' ∨ c = '$'))
      let raw2 :=
        if raw1.contains ',' ∧ ¬ raw1.contains '.' then
          raw1.map (fun c => if c = ',' then '.' else c)
        else raw1
      let raw3 := raw2.filter (fun c => ¬ c = ',')
      (firstNumericToken raw3).map (fun t => decOfToken t.1 t.2)

/-- Decimal.quantize to two places with the default ROUND_HALF_EVEN
context rounding; the result is the value in hundredths (cents). -/
def quantize2Cents (d : PyDec) : Nat :=
  if d.scale ≤ 2 then d.num * 10 ^ (2 - d.scale)
  else
    let p := 10 ^ (d.scale - 2)
    let q := d.num / p
    let r := d.num % p
    if 2 * r < p then q
    else if p < 2 * r then q + 1
    else if q % 2 = 0 then q else q + 1

/-- Fixed two-decimal rendering of a cents value, as the .2f format of the
quantized Decimal produces. -/
def formatCents2 (cents : Nat) : String :=
  toString (cents / 100) ++ "." ++ (if cents % 100 < 10 then "0" else "")
    ++ toString (cents % 100)

/-- normalize_vendor_key from app/analysis/payments/extractor.py:
falsy input gives None; otherwise strip and casefold, falsy again gives
None, then delete every character outside lowercase a-z and 0-9. -/
def normalize_vendor_key (value : Option String) : Option String :=
  match value with
  | none => none
  | some v =>
    if v = "" then none
    else
      let raw := lowerStr (pyStrip v.data)
      if raw = [] then none
      else some (String.mk (raw.filter
        (fun c => ('a' ≤ c && c ≤ 'z') || ('0' ≤ c && c ≤ '9'))))

/-- compute_fingerprint from app/analysis/payments/extractor.py
(_compute_fingerprint): all four fields must be present and truthy, the
vendor key must normalize to a truthy string, the amount is quantized to
two decimals and rendered with .2f, and the parts are joined with pipes.
The payment date is carried as its isoformat rendering. -/
def compute_fingerprint (vendor_name : Option String) (cost_amount : Option PyDec)
    (cost_currency : Option String) (payment_date_iso : Option String) : Option String :=
  match vendor_name, cost_amount, cost_currency, payment_date_iso with
  | some v, some a, some c, some d =>
    if v = "" ∨ c = "" then none
    else
      match normalize_vendor_key (some v) with
      | none => none
      | some key =>
        if key = "" then none
        else some (key ++ "|" ++ formatCents2 (quantize2Cents a) ++ "|" ++ c ++ "|" ++ d)
  | _, _, _, _ => none

/- ------------------------------------------------------------------
app/ingestion/metadata_ingestion.py : ingest_metadata

The per-message body of the ingestion loop runs, in mandatory order,
insert_email, build_embedding_text, vectorize_text, upsert_email, and
advances the checkpoint only afterwards; any exception in one message is
caught, counted as failed, and the loop continues. The message store and
the vector index are projected to their key sets (gmail message ids;
the Qdrant point id is uuid5 of the gmail id, a bijective rekeying), and
each message carries the step at which its processing raises, if any.
------------------------------------------------------------------ -/

/-- Outcome of one message inside the ingestion loop: at which of the
fetch/insert/embed/vectorize/upsert steps an exception is raised, or ok. -/
inductive IngestOutcome
  | fetchFail
  | insertFail
  | embedFail
  | vectorFail
  | upsertFail
  | ok
  deriving DecidableEq, Repr

/-- One provider message as the ingestion loop sees it. -/
structure IngestMsg where
  gmail_id : String
  internal_date : Nat
  outcome : IngestOutcome
  deriving DecidableEq, Repr

/-- Mutable state of one ingestion run: persisted message-store keys,
persisted vector-index keys, the persisted checkpoint (advanced_to), and
the three counters. -/
structure IngestState where
  store : List String
  vec : List String
  checkpoint : Option Nat
  processed : Nat
  skipped : Nat
  failed : Nat
  deriving DecidableEq, Repr

/-- Keyed upsert projected to the key set. -/
def keyUpsert (x : String) (xs : List String) : List String :=
  if x ∈ xs then xs else x :: xs

/-- The explicit safety-window filter: with a checkpoint present, messages
whose internal date is at most the checkpoint read at run start are
skipped. -/
def skipAlready (cp0 : Option Nat) (t : Nat) : Bool :=
  match cp0 with
  | none => false
  | some c => t ≤ c

/-- One iteration of the ingestion loop. cp0 is the checkpoint read at the
start of the run (the skip filter compares against it, not against the
advancing watermark); the checkpoint field of the state is advanced_to,
written through set_checkpoint_internal_date only after the vector upsert
succeeded and only when the internal date strictly exceeds it. -/
def ingest_step (cp0 : Option Nat) (st : IngestState) (m : IngestMsg) : IngestState :=
  match m.outcome with
  | .fetchFail => { st with failed := st.failed + 1 }
  | .insertFail =>
    if skipAlready cp0 m.internal_date then { st with skipped := st.skipped + 1 }
    else { st with failed := st.failed + 1 }
  | .embedFail =>
    if skipAlready cp0 m.internal_date then { st with skipped := st.skipped + 1 }
    else { st with store := keyUpsert m.gmail_id st.store, failed := st.failed + 1 }
  | .vectorFail =>
    if skipAlready cp0 m.internal_date then { st with skipped := st.skipped + 1 }
    else { st with store := keyUpsert m.gmail_id st.store, failed := st.failed + 1 }
  | .upsertFail =>
    if skipAlready cp0 m.internal_date then { st with skipped := st.skipped + 1 }
    else { st with store := keyUpsert m.gmail_id st.store, failed := st.failed + 1 }
  | .ok =>
    if skipAlready cp0 m.internal_date then { st with skipped := st.skipped + 1 }
    else
      { st with
        store := keyUpsert m.gmail_id st.store
        vec := keyUpsert m.gmail_id st.vec
        processed := st.processed + 1
        checkpoint :=
          match st.checkpoint with
          | none => some m.internal_date
          | some a => if a < m.internal_date then some m.internal_date else some a }

/-- ingest_metadata from app/ingestion/metadata_ingestion.py: fold the
loop body over the listed message ids, starting from the stored
checkpoint and the current contents of the two stores. -/
def ingest_metadata (cp0 : Option Nat) (store0 vec0 : List String)
    (msgs : List IngestMsg) : IngestState :=
  msgs.foldl (ingest_step cp0)
    { store := store0, vec := vec0, checkpoint := cp0
      processed := 0, skipped := 0, failed := 0 }

/-- Checkpoint order: none advances to anything; a persisted watermark
never decreases and never becomes unset. -/
def cpAdvanced (a b : Option Nat) : Prop :=
  match a, b with
  | none, _ => True
  | some x, some y => x ≤ y
  | some _, none => False

instance (a b : Option Nat) : Decidable (cpAdvanced a b) := by
  unfold cpAdvanced
  match a, b with
  | none, _ => exact inferInstanceAs (Decidable True)
  | some x, some y => exact inferInstanceAs (Decidable (x ≤ y))
  | some _, none => exact inferInstanceAs (Decidable False)

/- ------------------------------------------------------------------
Relational model of the Postgres tables
(docker init plus app/db/schema.py): email_message, email_cluster,
taxonomy_label, message_taxonomy_label, label_push_outbox,
archive_push_outbox.
------------------------------------------------------------------ -/

/-- One email_message row: primary key, the metadata columns written by
ingestion, and the classification/lifecycle columns added by
app/db/schema.py. -/
structure EmailRow where
  id : Nat
  gmail_message_id : Option String
  thread_id : Option String
  subject : Option String
  subject_normalized : Option String
  from_address : Option String
  from_domain : Option String
  to_addresses : List String
  cc_addresses : List String
  bcc_addresses : List String
  is_unread : Bool
  internal_date : Nat
  label_ids : List String
  category : Option String
  subcategory : Option String
  label_confidence : Option Int
  label_version : Option String
  cluster_id : Option String
  archived_at : Option Nat
  deriving DecidableEq, Repr

/-- The EmailMessage domain dataclass of app/domain/email.py, as passed
to insert_email. -/
structure EmailMessage where
  gmail_message_id : String
  thread_id : Option String
  subject : Option String
  subject_normalized : Option String
  from_address : String
  from_domain : String
  to_addresses : List String
  cc_addresses : List String
  bcc_addresses : List String
  is_unread : Bool
  internal_date : Nat
  label_ids : List String
  deriving DecidableEq, Repr

/-- One email_cluster row (the columns touched by update_cluster_label). -/
structure ClusterRow where
  id : String
  category : Option String
  subcategory : Option String
  label_confidence : Option Int
  label_version : Option String
  deriving DecidableEq, Repr

/-- One taxonomy_label row. -/
structure TaxonomyLabel where
  id : Nat
  level : Nat
  slug : String
  name : String
  parent_id : Option Nat
  retention_days : Option Nat
  deriving DecidableEq, Repr

/-- One message_taxonomy_label row. -/
structure TaxonomyAssignment where
  message_id : Nat
  taxonomy_label_id : Nat
  assigned_at : Nat
  confidence : Option Int
  deriving DecidableEq, Repr

/-- One outbox row (label_push_outbox and archive_push_outbox share this
shape; archive_push_outbox additionally carries UNIQUE(message_id)). -/
structure OutboxRow where
  message_id : Nat
  reason : String
  created_at : Nat
  processed_at : Option Nat
  error : Option String
  deriving DecidableEq, Repr

/-- The database state the claims touch. -/
structure Db where
  emails : List EmailRow
  clusters : List ClusterRow
  taxonomy : List TaxonomyLabel
  assignments : List TaxonomyAssignment
  label_outbox : List OutboxRow
  archive_outbox : List OutboxRow
  deriving DecidableEq, Repr

/- ------------------------------------------------------------------
app/repository/email_repository.py : insert_email
------------------------------------------------------------------ -/

/-- insert_email from app/repository/email_repository.py: INSERT with
ON CONFLICT (gmail_message_id) DO UPDATE SET over exactly the metadata
columns (thread_id, subject, subject_normalized, from_address,
from_domain, to/cc/bcc, is_unread, internal_date, label_ids). A fresh
row starts with every classification and lifecycle column NULL; freshId
models the serial primary key. -/
def insert_email (freshId : Nat) (e : EmailMessage) (table : List EmailRow) : List EmailRow :=
  if table.any (fun r => decide (r.gmail_message_id = some e.gmail_message_id)) then
    table.map (fun r =>
      if r.gmail_message_id = some e.gmail_message_id then
        { r with
          thread_id := e.thread_id
          subject := e.subject
          subject_normalized := e.subject_normalized
          from_address := some e.from_address
          from_domain := some e.from_domain
          to_addresses := e.to_addresses
          cc_addresses := e.cc_addresses
          bcc_addresses := e.bcc_addresses
          is_unread := e.is_unread
          internal_date := e.internal_date
          label_ids := e.label_ids }
      else r)
  else
    table ++ [{
      id := freshId
      gmail_message_id := some e.gmail_message_id
      thread_id := e.thread_id
      subject := e.subject
      subject_normalized := e.subject_normalized
      from_address := some e.from_address
      from_domain := some e.from_domain
      to_addresses := e.to_addresses
      cc_addresses := e.cc_addresses
      bcc_addresses := e.bcc_addresses
      is_unread := e.is_unread
      internal_date := e.internal_date
      label_ids := e.label_ids
      category := none
      subcategory := none
      label_confidence := none
      label_version := none
      cluster_id := none
      archived_at := none }]

/- ------------------------------------------------------------------
app/repository/email_query_repository.py : label_emails_in_cluster,
update_cluster_label
------------------------------------------------------------------ -/

/-- The WHERE clause of label_emails_in_cluster: the row's gmail message
id is one of the given ids and category IS NULL. -/
def labelTargets (gmail_ids : List String) (r : EmailRow) : Prop :=
  (∃ g ∈ gmail_ids, r.gmail_message_id = some g) ∧ r.category = none

instance (gmail_ids : List String) (r : EmailRow) : Decidable (labelTargets gmail_ids r) := by
  unfold labelTargets
  infer_instance

/-- label_emails_in_cluster from app/repository/email_query_repository.py:
empty id list short-circuits to 0; otherwise one UPDATE sets category,
subcategory, label_confidence = NULL, label_version and cluster_id on
exactly the rows matched by the WHERE clause; returns (table, rowcount). -/
def label_emails_in_cluster (gmail_ids : List String) (cluster_id : String)
    (category : String) (subcategory : Option String) (label_version : String)
    (table : List EmailRow) : List EmailRow × Nat :=
  if gmail_ids = [] then (table, 0)
  else
    (table.map (fun r =>
      if labelTargets gmail_ids r then
        { r with
          category := some category
          subcategory := subcategory
          label_confidence := none
          label_version := some label_version
          cluster_id := some cluster_id }
      else r),
     (table.filter (fun r => decide (labelTargets gmail_ids r))).length)

/-- update_cluster_label from app/repository/email_query_repository.py:
UPDATE email_cluster SET category, subcategory, label_confidence = NULL,
label_version WHERE id matches. -/
def update_cluster_label (cluster_id : String) (category : String)
    (subcategory : Option String) (label_version : String)
    (cs : List ClusterRow) : List ClusterRow :=
  cs.map (fun c =>
    if c.id = cluster_id then
      { c with
        category := some category
        subcategory := subcategory
        label_confidence := none
        label_version := some label_version }
    else c)

/-- The Phase 2C persistence block of cluster_and_label
(app/clustering/pipeline.py): label_emails_in_cluster on the cluster's
gmail ids followed by update_cluster_label. The bulk pipeline performs
no other writes at this point: it does not call
upsert_message_taxonomy_assignment and enqueues no label_push_outbox
rows (the module does not import the assignment repository). -/
def bulk_persist_labeling (db : Db) (gmail_ids : List String)
    (cluster_id category : String) (subcategory : Option String)
    (label_version : String) : Db × Nat :=
  let r := label_emails_in_cluster gmail_ids cluster_id category subcategory
    label_version db.emails
  ({ db with
      emails := r.1
      clusters := update_cluster_label cluster_id category subcategory
        label_version db.clusters },
   r.2)

/- ------------------------------------------------------------------
app/repository/taxonomy_assignment_repository.py :
upsert_message_taxonomy_assignment
------------------------------------------------------------------ -/

/-- The taxonomy-label resolution inside
upsert_message_taxonomy_assignment: prefer the Tier-2 row (level 2, name
equal to the truthy subcategory, whose parent is the level-1 row named by
the category), else fall back to the Tier-1 row. -/
def resolveAssignmentLabelId (db : Db) (category : String)
    (subcategory : Option String) : Option Nat :=
  let tid2 : Option Nat :=
    match subcategory with
    | none => none
    | some sub =>
      if sub = "" then none
      else
        (db.taxonomy.find? (fun c => decide (c.level = 2 ∧ c.name = sub
          ∧ ∃ p ∈ db.taxonomy, c.parent_id = some p.id ∧ p.level = 1
            ∧ p.name = category))).map (fun c => c.id)
  match tid2 with
  | some t => some t
  | none =>
    (db.taxonomy.find? (fun l => decide (l.level = 1 ∧ l.name = category))).map
      (fun l => l.id)

/-- upsert_message_taxonomy_assignment from
app/repository/taxonomy_assignment_repository.py: resolve the message by
gmail id (missing message is a no-op), resolve the taxonomy label id
(missing label is a no-op), replace any existing assignment rows of the
message with the single new one, and enqueue a label_push_outbox row
unless the message already has an unprocessed one. -/
def upsert_message_taxonomy_assignment (db : Db) (gmail_message_id : String)
    (category : String) (subcategory : Option String) (confidence : Option Int)
    (now : Nat) : Db :=
  match db.emails.find? (fun r => decide (r.gmail_message_id = some gmail_message_id)) with
  | none => db
  | some msg =>
    match resolveAssignmentLabelId db category subcategory with
    | none => db
    | some taxonomy_label_id =>
      { db with
        assignments :=
          (db.assignments.filter (fun a => ¬ a.message_id = msg.id))
            ++ [{ message_id := msg.id, taxonomy_label_id := taxonomy_label_id,
                  assigned_at := now, confidence := confidence }]
        label_outbox :=
          if ∃ o ∈ db.label_outbox, o.message_id = msg.id ∧ o.processed_at = none then
            db.label_outbox
          else
            db.label_outbox
              ++ [{ message_id := msg.id, reason := "label_assigned",
                    created_at := now, processed_at := none, error := none }] }

/- ------------------------------------------------------------------
app/repository/retention_archive_repository.py : plan_archive_outbox
------------------------------------------------------------------ -/

/-- COALESCE(tl.retention_days, p.retention_days, default) where p is the
LEFT JOIN of the label's parent. -/
def effective_retention_days (db : Db) (tl : TaxonomyLabel) (default_days : Nat) : Nat :=
  match tl.retention_days with
  | some d => d
  | none =>
    match tl.parent_id with
    | none => default_days
    | some pid =>
      match (db.taxonomy.find? (fun p => decide (p.id = pid))).bind (fun p => p.retention_days) with
      | some d => d
      | none => default_days

/-- The eligibility predicate of the plan_archive_outbox CTE: archived_at
IS NULL, gmail_message_id IS NOT NULL, and some taxonomy assignment joins
the message to a label whose effective retention has elapsed (timestamps
in seconds, one day being 86400 seconds). -/
def archive_eligible (db : Db) (default_days : Nat) (now : Nat) (m : EmailRow) : Prop :=
  m.archived_at = none ∧ ¬ m.gmail_message_id = none ∧
  ∃ a ∈ db.assignments, a.message_id = m.id ∧
    ∃ tl ∈ db.taxonomy, tl.id = a.taxonomy_label_id ∧
      m.internal_date + effective_retention_days db tl default_days * 86400 ≤ now

instance (db : Db) (default_days now : Nat) (m : EmailRow) :
    Decidable (archive_eligible db default_days now m) := by
  unfold archive_eligible
  infer_instance

/-- plan_archive_outbox from
app/repository/retention_archive_repository.py: the eligible CTE selects
the distinct eligible message ids; the INSERT ... ON CONFLICT (message_id)
DO UPDATE resets created_at to NOW() and processed_at/error to NULL on
rows that already exist and inserts fresh pending rows otherwise;
RETURNING message_id yields the planned ids. -/
def plan_archive_outbox (db : Db) (default_days : Nat) (now : Nat) :
    Db × List Nat :=
  let elig := ((db.emails.filter
    (fun m => decide (archive_eligible db default_days now m))).map
      (fun m => m.id)).dedup
  let reset := db.archive_outbox.map (fun r =>
    if r.message_id ∈ elig then
      { r with created_at := now, processed_at := none, error := none }
    else r)
  let fresh := (elig.filter
    (fun i => decide (¬ i ∈ db.archive_outbox.map (fun r => r.message_id)))).map
    (fun i => { message_id := i, reason := "retention_eligible",
                  created_at := now, processed_at := none, error := none : OutboxRow })
  ({ db with archive_outbox := reset ++ fresh }, elig)

/- ------------------------------------------------------------------
app/labeling/tier1.py, app/labeling/tier2.py, app/labeling/labeler.py
------------------------------------------------------------------ -/

/-- TIER1_CATEGORIES from app/labeling/tier1.py. -/
def TIER1_CATEGORIES : List String :=
  ["Financial", "Commercial & Marketing", "Work & Professional",
   "Personal & Social", "Account & Identity", "System & Automated"]

/-- validate_tier1_category from app/labeling/tier1.py: membership in the
closed Tier-1 set (exact string comparison); a miss raises ValueError,
modelled as none. -/
def validate_tier1_category (category : String) : Option String :=
  if category ∈ TIER1_CATEGORIES then some category else none

/-- TIER2_SEED from app/labeling/tier2.py: category to ordered
(subcategory, description) pairs, in dict insertion order. -/
def TIER2_SEED : List (String × List (String × String)) :=
  [("Financial",
    [("Receipts", "One-off purchase confirmations"),
     ("Orders & Purchases", "Order confirmations, purchase details (non-recurring)"),
     ("Payments & Reminders", "Payment due notices, payment reminders, outstanding balance"),
     ("Tickets & Bookings", "Ticketing, bookings, reservations with a financial component"),
     ("Invoices & Bills", "Requests for payment (utilities, services)"),
     ("Statements", "Periodic summaries (bank, credit card, investment)"),
     ("Subscriptions", "Recurring charges (software, media, memberships)"),
     ("Taxes & Legal", "Tax documents, filings, official notices"),
     ("Refunds & Adjustments", "Chargebacks, refunds, corrections")]),
   ("Commercial & Marketing",
    [("Newsletters", "Regular informational/promotional mailings"),
     ("Promotions & Offers", "Discounts, sales, limited offers"),
     ("Product Updates", "New features, launches, announcements"),
     ("Events & Webinars", "Invitations, registrations, reminders"),
     ("Surveys & Feedback", "Requests for reviews, ratings, opinions")]),
   ("Work & Professional",
    [("Internal Communication", "Colleagues, team updates, internal notices"),
     ("Project & Client Updates", "Deliverables, status reports, coordination"),
     ("Recruitment", "Job applications, recruiters, interviews"),
     ("Professional Networks", "LinkedIn, industry groups, associations"),
     ("Training & Education", "Courses, certifications, learning platforms")]),
   ("Personal & Social",
    [("Friends & Family", "Direct personal correspondence"),
     ("Health & Care", "Appointments, results, providers (non-billing)"),
     ("Education", "Schools, universities, learning (non-work)"),
     ("Clubs & Communities", "Hobbies, societies, local groups"),
     ("Travel & Leisure", "Bookings, itineraries, leisure activities (non-financial content)")]),
   ("Account & Identity",
    [("Security Alerts", "Login warnings, suspicious activity"),
     ("Authentication", "Password resets, 2FA codes"),
     ("Account Changes", "Email changes, profile updates"),
     ("Policy & Terms", "Terms of service, privacy updates"),
     ("Account Notifications", "General account status messages")]),
   ("System & Automated",
    [("Code & DevOps", "GitHub, CI/CD, build systems"),
     ("Monitoring & Alerts", "System health, uptime, errors"),
     ("Forum & Platform Notifications", "Replies, mentions, moderation"),
     ("Scheduled Reports", "Automated digests, summaries"),
     ("Integration Events", "Webhooks, API-driven notifications")])]

/-- The _seed_tier2_to_tier1 dict of _parse_multiline_label_response:
casefolded seed subcategory name to its Tier-1 category, in insertion
order (all seed names are distinct). -/
def seedTier2ToTier1 : List (List Char × String) :=
  TIER2_SEED.flatMap (fun p => p.2.map (fun sub => (lowerStr sub.1.data, p.1)))

/-- Case-insensitive literal-prefix stripping: the pattern (given in
lowercase) is matched against the casefolded head of the input. -/
def stripLitCI : List Char → List Char → Option (List Char)
  | [], rest => some rest
  | _, [] => none
  | p :: ps, c :: rest => if lowerChar c = p then stripLitCI ps rest else none

/-- Greedy whitespace, one colon, greedy whitespace — the mandatory
trailing part of every _PREFIX_RE alternative. -/
def colonTail (cs : List Char) : Option (List Char) :=
  match cs.dropWhile pyWs with
  | ':' :: rest => some (rest.dropWhile pyWs)
  | _ => none

/-- The tier alternatives of _PREFIX_RE after the literal tier: any run of
hyphens/whitespace, the digit, an optional greedy whitespace-plus-word
group (with backtracking to the groupless parse when the colon is
missing), then the colon tail. -/
def tierTail (digit : Char) (word : List Char) (cs : List Char) : Option (List Char) :=
  match cs.dropWhile (fun c => c = '-' || pyWs c) with
  | d :: rest =>
    if d = digit then
      match
        (match stripLitCI word (rest.dropWhile pyWs) with
         | some r2 => colonTail r2
         | none => none) with
      | some r => some r
      | none => colonTail rest
    else none
  | [] => none

/-- One anchored application of _PREFIX_RE.sub: leading whitespace, one of
the alternatives category, subcategory, tier-1 (optionally followed by
the word category), tier-2 (optionally followed by subcategory), each
case-insensitive and ending in a colon surrounded by optional
whitespace. The alternatives start with distinct letters, so no
cross-alternative backtracking can occur. Returns the input unchanged
when nothing matches. -/
def labelPreReStrip (cs : List Char) : List Char :=
  let r0 := cs.dropWhile pyWs
  let attempt : Option (List Char) :=
    match stripLitCI "category".data r0 with
    | some r => colonTail r
    | none =>
      match stripLitCI "subcategory".data r0 with
      | some r => colonTail r
      | none =>
        match stripLitCI "tier".data r0 with
        | some r =>
          match tierTail '1' "category".data r with
          | some r2 => some r2
          | none => tierTail '2' "subcategory".data r
        | none => none
  match attempt with
  | some rest => rest
  | none => cs

/-- Character class of _BULLET_RE (the source file holds the mojibake
bytes U+00E2, U+20AC, U+00A2 for the intended bullet character). -/
def bulletChar (c : Char) : Bool :=
  c = '-' || c = '*' || c.toNat = 0xe2 || c.toNat = 0x20ac || c.toNat = 0xa2

/-- One anchored application of _BULLET_RE.sub: leading whitespace, then
either one or more bullet characters, or digits followed by a dot, or
digits followed by a closing parenthesis, then trailing whitespace.
Returns the input unchanged when nothing matches. -/
def bulletReStrip (cs : List Char) : List Char :=
  let r0 := cs.dropWhile pyWs
  let attempt : Option (List Char) :=
    match r0 with
    | c :: rest =>
      if bulletChar c then some ((rest.dropWhile bulletChar).dropWhile pyWs)
      else if isDigitChar c then
        match (List.span isDigitChar (c :: rest)).2 with
        | '.' :: r2 => some (r2.dropWhile pyWs)
        | ')' :: r2 => some (r2.dropWhile pyWs)
        | _ => none
      else none
    | [] => none
  match attempt with
  | some rest => rest
  | none => cs

/-- _normalize_response_line from app/labeling/labeler.py: strip the
leaked label prefix and strip bullets, trimming after each pass. -/
def normalize_response_line (line : List Char) : List Char :=
  pyStrip (bulletReStrip (pyStrip (labelPreReStrip line)))

/-- Case-sensitive literal prefix test on character lists. -/
def listStarts : List Char → List Char → Bool
  | [], _ => true
  | _ :: _, [] => false
  | p :: ps, c :: rest => p = c && listStarts ps rest

/-- Substring containment on character lists (the Python in operator). -/
def containsSub (needle : List Char) : List Char → Bool
  | [] => needle.isEmpty
  | c :: rest => listStarts needle (c :: rest) || containsSub needle rest

/-- _FORBIDDEN_SUBCATEGORY_PREFIXES from app/labeling/labeler.py. -/
def forbiddenSubPres : List (List Char) :=
  ["note:", "notes:", "reason:", "because:", "explanation:", "rationale:"].map
    String.data

/-- _sanitize_subcategory_name from app/labeling/labeler.py: None passes
through; a whitespace-only candidate is rejected as empty; the candidate
is then prefix/bullet-normalized; a casefolded meta prefix, the chosen
categories plus match fingerprint, embedded line breaks, or length over
80 reject it; otherwise the normalized name is returned. -/
def sanitize_subcategory_name (candidate : Option (List Char)) :
    Option (List Char) × Option String :=
  match candidate with
  | none => (none, none)
  | some cand =>
    let s0 := pyStrip cand
    if s0 = [] then (none, some "empty")
    else
      let s := normalize_response_line s0
      let folded := lowerStr s
      if forbiddenSubPres.any (fun p => listStarts p folded) then
        (none, some "meta_note_prefix")
      else if containsSub "chosen categories".data folded
          && containsSub "match".data folded then
        (none, some "meta_explanation")
      else if s.contains '\n' || s.contains '\r' then
        (none, some "multiline")
      else if 80 < s.length then
        (none, some "too_long")
      else
        (some s, none)

/-- Python str.splitlines restricted to the line boundaries LF, CR, CRLF
(a trailing boundary yields one trailing empty segment here where Python
yields none; the parser filters empty lines, so the difference is
inert). -/
def splitLines : List Char → List (List Char)
  | [] => [[]]
  | '\r' :: '\n' :: rest => [] :: splitLines rest
  | '\r' :: rest => [] :: splitLines rest
  | '\n' :: rest => [] :: splitLines rest
  | c :: rest =>
    match splitLines rest with
    | [] => [[c]]
    | l :: ls => (c :: l) :: ls

/-- Truthiness of the tier2_options argument (None and the empty dict are
falsy). -/
def tier2optsTruthy (tier2opts : Option (List (String × List String))) : Bool :=
  match tier2opts with
  | none => false
  | some [] => false
  | some (_ :: _) => true

/-- dict.get(category_name, []) over the options assoc list. -/
def tier2optsGet (tier2opts : Option (List (String × List String)))
    (category_name : String) : List String :=
  match tier2opts with
  | none => []
  | some opts =>
    match opts.find? (fun p => p.1 = category_name) with
    | some p => p.2
    | none => []

/-- _tier2_match_for_category from _parse_multiline_label_response:
prefer the canonical spelling from the DB options for the category, else
keep the candidate spelling when the casefolded candidate is a seed
subcategory of that category. -/
def tier2MatchForCategory (tier2opts : Option (List (String × List String)))
    (category_name : String) (candidate : List Char) : Option (List Char) :=
  let cand := pyStrip candidate
  if cand = [] then none
  else
    let fromOpts : Option (List Char) :=
      if tier2optsTruthy tier2opts then
        match (tier2optsGet tier2opts category_name).find?
            (fun s => lowerStr cand = lowerStr s.data) with
        | some s => some s.data
        | none => none
      else none
    match fromOpts with
    | some s => some s
    | none =>
      if seedTier2ToTier1.any
          (fun p => p.2 = category_name && p.1 = lowerStr cand) then
        some cand
      else none

/-- _tier2_to_tier1 from _parse_multiline_label_response: infer the
parent Tier-1 category of a candidate Tier-2 name, first from the DB
options (in insertion order), then from the seed map. -/
def tier2ToTier1 (tier2opts : Option (List (String × List String)))
    (candidate : List Char) : Option (String × List Char) :=
  let cand := pyStrip candidate
  if cand = [] then none
  else
    let fromOpts : Option (String × List Char) :=
      if tier2optsTruthy tier2opts then
        match tier2opts with
        | none => none
        | some opts =>
          opts.findSome? (fun p =>
            (p.2.find? (fun s => lowerStr cand = lowerStr s.data)).map
              (fun s => (p.1, s.data)))
      else none
    match fromOpts with
    | some r => some r
    | none =>
      match seedTier2ToTier1.find? (fun p => p.1 = lowerStr cand) with
      | some p => some (p.2, cand)
      | none => none

/-- The category scan of _parse_multiline_label_response: first line (in
order) on which some Tier-1 category (in order) satisfies the test,
together with its index. -/
def findCatIdx (test : List Char → String → Bool) :
    List (List Char) → Nat → Option (String × Nat)
  | [], _ => none
  | l :: rest, i =>
    match TIER1_CATEGORIES.find? (fun c => test l c) with
    | some c => some (c, i)
    | none => findCatIdx test rest (i + 1)

/-- The subcategory picked from the lines after the category line: the
first following line, with the none/null spellings mapped to None (lines
are already normalized and nonempty). -/
def pickSubAfter (lines : List (List Char)) (i : Nat) : Option (List Char) :=
  match lines.drop (i + 1) with
  | [] => none
  | l :: _ =>
    if lowerStr l = "none".data ∨ lowerStr l = "null".data
        ∨ lowerStr l = "(none)".data then none
    else some l

/-- _parse_multiline_label_response from app/labeling/labeler.py:
normalize and filter the response lines (empty response raises, modelled
none); find a Tier-1 category by exact casefolded match, then by
casefolded substring match; failing both, return the first line that
resolves as a Tier-2 name with its inferred Tier-1 parent (the final
validate_tier1_category fallback on line one always raises, because an
exact Tier-1 line would already have matched). With a category line at
index i, the subcategory is the next line (none/null spellings drop it);
when that leaves none and the category was not on the first line, the
preceding line is tried as a Tier-2 of the category (the swapped-order
tolerance); finally a recognized subcategory is canonicalized. -/
def parse_multiline_label_response
    (tier2opts : Option (List (String × List String))) (raw : String) :
    Option (String × Option String) :=
  let lines := ((splitLines raw.data).map normalize_response_line).filter
    (fun l => ¬ l = [])
  if lines = [] then none
  else
    let afterCat : String → Nat → Option (String × Option String) :=
      fun category i =>
        let sub0 := pickSubAfter lines i
        let sub1 :=
          match sub0 with
          | some s => some s
          | none =>
            if 0 < i then
              match tier2MatchForCategory tier2opts category
                  (lines.getD (i - 1) []) with
              | some m => some m
              | none => none
            else none
        let sub2 :=
          match sub1 with
          | none => none
          | some s =>
            match tier2MatchForCategory tier2opts category s with
            | some m => some m
            | none => some s
        some (category, sub2.map String.mk)
    match findCatIdx (fun l c => lowerStr l = lowerStr c.data) lines 0 with
    | some (c, i) => afterCat c i
    | none =>
      match findCatIdx (fun l c => containsSub (lowerStr c.data) (lowerStr l))
          lines 0 with
      | some (c, i) => afterCat c i
      | none =>
        match lines.findSome? (fun l => tier2ToTier1 tier2opts l) with
        | some (cat, sub) => some (cat, some (String.mk sub))
        | none => none

/-- The label result dataclass of app/labeling/labeler.py. -/
structure LabelResult where
  category : String
  subcategory : Option String
  deriving DecidableEq, Repr

/-- OllamaLabeler.label from app/labeling/labeler.py, with the two model
responses as inputs (raw0 for the base prompt, raw1 for the retry prompt
carrying the stricter instruction). Parse and Tier-1 validation errors
propagate (none); a sanitize rejection on the first attempt triggers
exactly one retry; a rejection on the retry falls back to the validated
Tier-1 category with no subcategory. The second component counts the
model calls made. -/
def ollama_label (tier2opts : Option (List (String × List String)))
    (raw0 raw1 : String) : Option LabelResult × Nat :=
  match parse_multiline_label_response tier2opts raw0 with
  | none => (none, 1)
  | some (c0, sub0) =>
    match validate_tier1_category c0 with
    | none => (none, 1)
    | some c0v =>
      match sanitize_subcategory_name (sub0.map String.data) with
      | (cleaned, none) =>
        (some { category := c0v, subcategory := cleaned.map String.mk }, 1)
      | (_, some _) =>
        match parse_multiline_label_response tier2opts raw1 with
        | none => (none, 2)
        | some (c1, sub1) =>
          match validate_tier1_category c1 with
          | none => (none, 2)
          | some c1v =>
            match sanitize_subcategory_name (sub1.map String.data) with
            | (cleaned1, none) =>
              (some { category := c1v, subcategory := cleaned1.map String.mk }, 2)
            | (_, some _) =>
              (some { category := c1v, subcategory := none }, 2)

/-- The rejection condition of the claim, read on the candidate the code
inspects: the trimmed candidate is empty, or its normalized form is
multi-line, longer than 80 characters, or begins with a casefolded meta
prefix. -/
def claimRejectable (s : List Char) : Prop :=
  pyStrip s = []
  ∨ (normalize_response_line (pyStrip s)).contains '\n' = true
  ∨ (normalize_response_line (pyStrip s)).contains '\r' = true
  ∨ 80 < (normalize_response_line (pyStrip s)).length
  ∨ ∃ p ∈ forbiddenSubPres,
      listStarts p (lowerStr (normalize_response_line (pyStrip s))) = true

/-- Concrete email_message fixture used by witness instantiations: a
fresh unclassified row, as insert_email creates it. -/
def mkEmailRow (n : Nat) (gid : String) : EmailRow :=
  { id := n, gmail_message_id := some gid, thread_id := none, subject := none
    subject_normalized := none, from_address := some "a@x.com"
    from_domain := some "x.com", to_addresses := [], cc_addresses := []
    bcc_addresses := [], is_unread := true, internal_date := 100, label_ids := []
    category := none, subcategory := none, label_confidence := none
    label_version := none, cluster_id := none, archived_at := none }

/-- Concrete database fixture: one unclassified message, one seeded
Tier-1 label, empty assignment and outbox tables. -/
def dbOneUnlabelled : Db :=
  { emails := [mkEmailRow 1 "g1"]
    clusters := [{ id := "c-1", category := none, subcategory := none
                   label_confidence := none, label_version := none }]
    taxonomy := [{ id := 10, level := 1, slug := "financial", name := "Financial"
                   parent_id := none, retention_days := none }]
    assignments := []
    label_outbox := []
    archive_outbox := [] }

/-- Concrete database fixture for retention planning: one old message
assigned to a label with one-day retention. -/
def dbRetention : Db :=
  { emails := [mkEmailRow 1 "g1"]
    clusters := []
    taxonomy := [{ id := 10, level := 1, slug := "financial", name := "Financial"
                   parent_id := none, retention_days := some 1 }]
    assignments := [{ message_id := 1, taxonomy_label_id := 10, assigned_at := 0
                      confidence := none }]
    label_outbox := []
    archive_outbox := [] }

/- ==================================================================
Theorems
================================================================== -/

/-- Membership in a keyed upsert is preserved. -/
theorem keyUpsert_mem (x y : String) (xs : List String) (h : x ∈ xs) :
    x ∈ keyUpsert y xs := by
  unfold keyUpsert
  split
  · exact h
  · exact List.mem_cons_of_mem _ h

/-- A keyed upsert makes its key present. -/
theorem keyUpsert_self (x : String) (xs : List String) : x ∈ keyUpsert x xs := by
  unfold keyUpsert
  split
  · assumption
  · exact List.mem_cons_self _ _

/-- cpAdvanced is reflexive. -/
theorem cpAdvanced_refl (a : Option Nat) : cpAdvanced a a := by
  cases a <;> simp [cpAdvanced]

/-- cpAdvanced is transitive. -/
theorem cpAdvanced_trans {a b c : Option Nat}
    (h1 : cpAdvanced a b) (h2 : cpAdvanced b c) : cpAdvanced a c := by
  cases a <;> cases b <;> cases c <;> simp_all [cpAdvanced] <;> omega

/-- A set watermark stays set and can only grow. -/
theorem cpAdvanced_some {x : Nat} {b : Option Nat} (h : cpAdvanced (some x) b) :
    ∃ y, b = some y ∧ x ≤ y := by
  cases b with
  | none => exact absurd h (by simp [cpAdvanced])
  | some y => exact ⟨y, rfl, h⟩

/-- One ingestion iteration never removes a message-store key. -/
theorem ingest_step_store_mono (cp0 : Option Nat) (st : IngestState) (m : IngestMsg)
    (x : String) (h : x ∈ st.store) : x ∈ (ingest_step cp0 st m).store := by
  obtain ⟨g, t, o⟩ := m
  cases o <;> simp only [ingest_step] <;> try split
  all_goals first
    | exact h
    | exact keyUpsert_mem x g st.store h

/-- One ingestion iteration never removes a vector-index key. -/
theorem ingest_step_vec_mono (cp0 : Option Nat) (st : IngestState) (m : IngestMsg)
    (x : String) (h : x ∈ st.vec) : x ∈ (ingest_step cp0 st m).vec := by
  obtain ⟨g, t, o⟩ := m
  cases o <;> simp only [ingest_step] <;> try split
  all_goals first
    | exact h
    | exact keyUpsert_mem x g st.vec h

/-- One ingestion iteration only advances the watermark. -/
theorem ingest_step_cp_mono (cp0 : Option Nat) (st : IngestState) (m : IngestMsg) :
    cpAdvanced st.checkpoint (ingest_step cp0 st m).checkpoint := by
  obtain ⟨g, t, o⟩ := m
  cases o <;> simp only [ingest_step] <;> try split
  all_goals try exact cpAdvanced_refl _
  cases st.checkpoint with
  | none => simp [cpAdvanced]
  | some a =>
    by_cases hat : a < t
    · simp [cpAdvanced, hat]
      omega
    · simp [cpAdvanced, hat]

/-- Folding the loop preserves message-store keys. -/
theorem ingest_fold_store_mono (msgs : List IngestMsg) :
    ∀ (cp0 : Option Nat) (st : IngestState) (x : String), x ∈ st.store →
      x ∈ (msgs.foldl (ingest_step cp0) st).store := by
  induction msgs with
  | nil => intro cp0 st x h; exact h
  | cons m rest ih =>
    intro cp0 st x h
    exact ih cp0 (ingest_step cp0 st m) x (ingest_step_store_mono cp0 st m x h)

/-- Folding the loop preserves vector-index keys. -/
theorem ingest_fold_vec_mono (msgs : List IngestMsg) :
    ∀ (cp0 : Option Nat) (st : IngestState) (x : String), x ∈ st.vec →
      x ∈ (msgs.foldl (ingest_step cp0) st).vec := by
  induction msgs with
  | nil => intro cp0 st x h; exact h
  | cons m rest ih =>
    intro cp0 st x h
    exact ih cp0 (ingest_step cp0 st m) x (ingest_step_vec_mono cp0 st m x h)

/-- Folding the loop only advances the watermark. -/
theorem ingest_fold_cp_mono (msgs : List IngestMsg) :
    ∀ (cp0 : Option Nat) (st : IngestState),
      cpAdvanced st.checkpoint ((msgs.foldl (ingest_step cp0) st)).checkpoint := by
  induction msgs with
  | nil => intro cp0 st; exact cpAdvanced_refl _
  | cons m rest ih =>
    intro cp0 st
    exact cpAdvanced_trans (ingest_step_cp_mono cp0 st m) (ih cp0 (ingest_step cp0 st m))

/-- A fully successful, unskipped iteration persists its message in both
stores and leaves the watermark at least at its timestamp. -/
theorem ingest_step_ok_persists (cp0 : Option Nat) (st : IngestState) (m : IngestMsg)
    (ho : m.outcome = .ok) (hs : skipAlready cp0 m.internal_date = false) :
    m.gmail_id ∈ (ingest_step cp0 st m).store
    ∧ m.gmail_id ∈ (ingest_step cp0 st m).vec
    ∧ ∃ y, (ingest_step cp0 st m).checkpoint = some y ∧ m.internal_date ≤ y := by
  obtain ⟨g, t, o⟩ := m
  cases o <;> simp_all [ingest_step]
  refine ⟨keyUpsert_self g st.store, keyUpsert_self g st.vec, ?_⟩
  cases st.checkpoint with
  | none => exact ⟨t, rfl, Nat.le_refl t⟩
  | some a =>
    by_cases hat : a < t
    · exact ⟨t, by simp [hat], Nat.le_refl t⟩
    · exact ⟨a, by simp [hat], Nat.le_of_not_lt hat⟩

/-- A message processed successfully by the run ends up in both stores
with the final watermark at or above its timestamp. -/
theorem ingest_fold_persists (msgs : List IngestMsg) :
    ∀ (cp0 : Option Nat) (st : IngestState) (m : IngestMsg), m ∈ msgs →
      m.outcome = .ok → skipAlready cp0 m.internal_date = false →
      m.gmail_id ∈ (msgs.foldl (ingest_step cp0) st).store
      ∧ m.gmail_id ∈ (msgs.foldl (ingest_step cp0) st).vec
      ∧ ∃ y, (msgs.foldl (ingest_step cp0) st).checkpoint = some y
          ∧ m.internal_date ≤ y := by
  induction msgs with
  | nil => intro cp0 st m hm; exact absurd hm (List.not_mem_nil m)
  | cons hd rest ih =>
    intro cp0 st m hm ho hs
    rcases List.mem_cons.mp hm with heq | htl
    · subst heq
      obtain ⟨h1, h2, y0, hcp, hy0⟩ := ingest_step_ok_persists cp0 st m ho hs
      refine ⟨ingest_fold_store_mono rest cp0 _ _ h1,
        ingest_fold_vec_mono rest cp0 _ _ h2, ?_⟩
      have hmono := ingest_fold_cp_mono rest cp0 (ingest_step cp0 st m)
      rw [hcp] at hmono
      obtain ⟨y, hb, hxy⟩ := cpAdvanced_some hmono
      exact ⟨y, hb, Nat.le_trans hy0 hxy⟩
    · exact ih cp0 (ingest_step cp0 st hd) m htl ho hs

/-- C10: re-ingesting a stored message (insert_email hitting the
ON CONFLICT branch on gmail_message_id) rewrites only the metadata
columns of the conflicting row (thread id, subject, normalized subject,
sender address and domain, recipient lists, unread flag, timestamp,
provider-label array); every other pre-existing row is untouched, and in
all cases the classification and lifecycle columns (category,
subcategory, cluster_id, label_version, label_confidence, archived_at)
and the primary key of every pre-existing row are unchanged. -/
theorem c10_insert_email_frame (fid : Nat) (e : EmailMessage) (table : List EmailRow)
    (i : Nat) (h : i < table.length) :
    ∃ h2 : i < (insert_email fid e table).length,
      (insert_email fid e table).get ⟨i, h2⟩ =
        (if (table.get ⟨i, h⟩).gmail_message_id = some e.gmail_message_id then
          { table.get ⟨i, h⟩ with
            thread_id := e.thread_id
            subject := e.subject
            subject_normalized := e.subject_normalized
            from_address := some e.from_address
            from_domain := some e.from_domain
            to_addresses := e.to_addresses
            cc_addresses := e.cc_addresses
            bcc_addresses := e.bcc_addresses
            is_unread := e.is_unread
            internal_date := e.internal_date
            label_ids := e.label_ids }
        else table.get ⟨i, h⟩)
      ∧ ((insert_email fid e table).get ⟨i, h2⟩).category = (table.get ⟨i, h⟩).category
      ∧ ((insert_email fid e table).get ⟨i, h2⟩).subcategory = (table.get ⟨i, h⟩).subcategory
      ∧ ((insert_email fid e table).get ⟨i, h2⟩).cluster_id = (table.get ⟨i, h⟩).cluster_id
      ∧ ((insert_email fid e table).get ⟨i, h2⟩).label_version = (table.get ⟨i, h⟩).label_version
      ∧ ((insert_email fid e table).get ⟨i, h2⟩).label_confidence
          = (table.get ⟨i, h⟩).label_confidence
      ∧ ((insert_email fid e table).get ⟨i, h2⟩).archived_at = (table.get ⟨i, h⟩).archived_at
      ∧ ((insert_email fid e table).get ⟨i, h2⟩).id = (table.get ⟨i, h⟩).id := by
  have key : ∃ h2 : i < (insert_email fid e table).length,
      (insert_email fid e table).get ⟨i, h2⟩ =
        (if (table.get ⟨i, h⟩).gmail_message_id = some e.gmail_message_id then
          { table.get ⟨i, h⟩ with
            thread_id := e.thread_id
            subject := e.subject
            subject_normalized := e.subject_normalized
            from_address := some e.from_address
            from_domain := some e.from_domain
            to_addresses := e.to_addresses
            cc_addresses := e.cc_addresses
            bcc_addresses := e.bcc_addresses
            is_unread := e.is_unread
            internal_date := e.internal_date
            label_ids := e.label_ids }
        else table.get ⟨i, h⟩) := by
    unfold insert_email
    by_cases hany : table.any
        (fun r => decide (r.gmail_message_id = some e.gmail_message_id)) = true
    · rw [if_pos hany]
      refine ⟨by simpa using h, ?_⟩
      simp only [List.get_eq_getElem, List.getElem_map]
    · rw [if_neg hany]
      refine ⟨by simp only [List.length_append, List.length_singleton]; omega, ?_⟩
      have hnot : ¬ (table.get ⟨i, h⟩).gmail_message_id = some e.gmail_message_id := by
        intro hcontra
        apply hany
        rw [List.any_eq_true]
        exact ⟨table.get ⟨i, h⟩, by apply List.get_mem, by simpa using hcontra⟩
      rw [if_neg hnot]
      simp only [List.get_eq_getElem]
      exact List.getElem_append_left h
  obtain ⟨h2, heq⟩ := key
  refine ⟨h2, heq, ?_, ?_, ?_, ?_, ?_, ?_, ?_⟩ <;> rw [heq] <;> split <;> rfl

/-- C10 witness: the frame equation applied to a one-row table hit by a
conflicting re-ingest. -/
theorem c10_insert_email_frame_witness :
    ∃ h2 : 0 < (insert_email 7
      { gmail_message_id := "g1", thread_id := some "t2", subject := some "s2"
        subject_normalized := some "s2", from_address := "b@y.com", from_domain := "y.com"
        to_addresses := [], cc_addresses := [], bcc_addresses := []
        is_unread := false, internal_date := 200, label_ids := ["INBOX"] }
      [{ id := 1, gmail_message_id := some "g1", thread_id := some "t1"
         subject := some "s1", subject_normalized := some "s1"
         from_address := some "a@x.com", from_domain := some "x.com"
         to_addresses := [], cc_addresses := [], bcc_addresses := []
         is_unread := true, internal_date := 100, label_ids := []
         category := some "Financial", subcategory := some "Receipts"
         label_confidence := none, label_version := some "v1"
         cluster_id := some "c-1", archived_at := some 300 }]).length,
    ((insert_email 7
      { gmail_message_id := "g1", thread_id := some "t2", subject := some "s2"
        subject_normalized := some "s2", from_address := "b@y.com", from_domain := "y.com"
        to_addresses := [], cc_addresses := [], bcc_addresses := []
        is_unread := false, internal_date := 200, label_ids := ["INBOX"] }
      [{ id := 1, gmail_message_id := some "g1", thread_id := some "t1"
         subject := some "s1", subject_normalized := some "s1"
         from_address := some "a@x.com", from_domain := some "x.com"
         to_addresses := [], cc_addresses := [], bcc_addresses := []
         is_unread := true, internal_date := 100, label_ids := []
         category := some "Financial", subcategory := some "Receipts"
         label_confidence := none, label_version := some "v1"
         cluster_id := some "c-1", archived_at := some 300 }]).get ⟨0, h2⟩).category
      = some "Financial" := by
  obtain ⟨h2, heq, hcat, _⟩ := c10_insert_email_frame 7
    { gmail_message_id := "g1", thread_id := some "t2", subject := some "s2"
      subject_normalized := some "s2", from_address := "b@y.com", from_domain := "y.com"
      to_addresses := [], cc_addresses := [], bcc_addresses := []
      is_unread := false, internal_date := 200, label_ids := ["INBOX"] }
    [{ id := 1, gmail_message_id := some "g1", thread_id := some "t1"
       subject := some "s1", subject_normalized := some "s1"
       from_address := some "a@x.com", from_domain := some "x.com"
       to_addresses := [], cc_addresses := [], bcc_addresses := []
       is_unread := true, internal_date := 100, label_ids := []
       category := some "Financial", subcategory := some "Receipts"
       label_confidence := none, label_version := some "v1"
       cluster_id := some "c-1", archived_at := some 300 }] 0 (by decide)
  exact ⟨h2, by rw [hcat]; rfl⟩

/-- The labeling UPDATE preserves the table length. -/
theorem label_emails_length (gmail_ids : List String) (cid cat : String)
    (sub : Option String) (ver : String) (table : List EmailRow) :
    (label_emails_in_cluster gmail_ids cid cat sub ver table).1.length = table.length := by
  unfold label_emails_in_cluster
  split
  · rfl
  · simp

/-- Pointwise effect of the labeling UPDATE: the row at any index is
rewritten exactly when the WHERE clause matches it. -/
theorem label_emails_lookup (gmail_ids : List String) (cid cat : String)
    (sub : Option String) (ver : String) (table : List EmailRow) (i : Nat) :
    (label_emails_in_cluster gmail_ids cid cat sub ver table).1[i]? =
      table[i]?.map (fun r =>
        if labelTargets gmail_ids r then
          { r with
            category := some cat
            subcategory := sub
            label_confidence := none
            label_version := some ver
            cluster_id := some cid }
        else r) := by
  unfold label_emails_in_cluster
  by_cases hids : gmail_ids = []
  · subst hids
    simp only [if_pos rfl]
    cases hx : table[i]? with
    | none => simp [hx]
    | some r =>
      have hnt : ¬ labelTargets [] r := by
        intro hy
        rcases hy.1 with ⟨g, hg, _⟩
        exact absurd hg (List.not_mem_nil g)
      simp [hx, hnt]
  · rw [if_neg hids]
    exact List.getElem?_map _ table i

/-- C2: no labeling pass modifies a message whose category is already
non-null (the UPDATE of label_emails_in_cluster matches only rows with
category IS NULL), and two labeling passes racing on the same message
collapse to first-writer-wins: after pass one labels an unlabelled row,
a second pass leaves the row exactly as pass one wrote it. -/
theorem c2_labeling_first_writer_wins :
    (∀ (gmail_ids : List String) (cid cat : String) (sub : Option String)
      (ver : String) (table : List EmailRow) (i : Nat) (r : EmailRow)
      (c : String), table[i]? = some r → r.category = some c →
      (label_emails_in_cluster gmail_ids cid cat sub ver table).1[i]? = some r)
    ∧ (∀ (ids1 : List String) (cid1 cat1 : String) (sub1 : Option String) (ver1 : String)
        (ids2 : List String) (cid2 cat2 : String) (sub2 : Option String) (ver2 : String)
        (table : List EmailRow) (i : Nat) (r : EmailRow),
        table[i]? = some r → r.category = none →
        (∃ g ∈ ids1, r.gmail_message_id = some g) →
        (label_emails_in_cluster ids2 cid2 cat2 sub2 ver2
          (label_emails_in_cluster ids1 cid1 cat1 sub1 ver1 table).1).1[i]?
          = some { r with
              category := some cat1
              subcategory := sub1
              label_confidence := none
              label_version := some ver1
              cluster_id := some cid1 }) := by
  constructor
  · intro gmail_ids cid cat sub ver table i r c hr hc
    rw [label_emails_lookup, hr]
    have hnt : ¬ labelTargets gmail_ids r := by
      intro hx
      exact Option.noConfusion (hc.symm.trans hx.2)
    simp [hnt]
  · intro ids1 cid1 cat1 sub1 ver1 ids2 cid2 cat2 sub2 ver2 table i r hr hnone hmem
    rw [label_emails_lookup, label_emails_lookup, hr]
    have ht1 : labelTargets ids1 r := ⟨hmem, hnone⟩
    have hnt2 : ¬ labelTargets ids2
        { r with
          category := some cat1
          subcategory := sub1
          label_confidence := none
          label_version := some ver1
          cluster_id := some cid1 } := by
      intro hx
      exact Option.noConfusion hx.2
    simp [ht1, hnt2]

/-- C2 witness: both conjuncts at concrete one-row tables: an already
labelled row survives a labeling pass unchanged, and a second racing
pass leaves the first pass write in place. -/
theorem c2_labeling_first_writer_wins_witness :
    ((label_emails_in_cluster ["g1"] "c2" "Personal & Social" none "v2"
      [{ mkEmailRow 1 "g1" with
         category := some "Financial", label_version := some "v1"
         cluster_id := some "c1" }]).1[0]?
      = some { mkEmailRow 1 "g1" with
               category := some "Financial", label_version := some "v1"
               cluster_id := some "c1" })
    ∧ ((label_emails_in_cluster ["g2"] "c9" "System & Automated" none "v9"
        (label_emails_in_cluster ["g2"] "c3" "Financial" (some "Receipts") "v1"
          [mkEmailRow 2 "g2"]).1).1[0]?
      = some { mkEmailRow 2 "g2" with
               category := some "Financial", subcategory := some "Receipts"
               label_confidence := none, label_version := some "v1"
               cluster_id := some "c3" }) :=
  ⟨c2_labeling_first_writer_wins.1 ["g1"] "c2" "Personal & Social" none "v2"
      [{ mkEmailRow 1 "g1" with
         category := some "Financial", label_version := some "v1"
         cluster_id := some "c1" }]
      0 _ "Financial" rfl rfl,
    c2_labeling_first_writer_wins.2 ["g2"] "c3" "Financial" (some "Receipts") "v1"
      ["g2"] "c9" "System & Automated" none "v9" [mkEmailRow 2 "g2"]
      0 _ rfl rfl ⟨"g2", List.mem_singleton.mpr rfl, rfl⟩⟩

/-- Inversion of a sanitize acceptance that produced a name: the
candidate was not blank, the name is its normalized form, and every
rejection check is false on it. -/
theorem sanitize_accept_inv (cand n : List Char)
    (h : sanitize_subcategory_name (some cand) = (some n, none)) :
    ¬ pyStrip cand = []
    ∧ n = normalize_response_line (pyStrip cand)
    ∧ forbiddenSubPres.any (fun p => listStarts p (lowerStr n)) = false
    ∧ (n.contains '\n' || n.contains '\r') = false
    ∧ ¬ 80 < n.length := by
  simp only [sanitize_subcategory_name] at h
  split at h
  · simp at h
  · split at h
    · simp at h
    · split at h
      · simp at h
      · split at h
        · simp at h
        · split at h
          · simp at h
          · rename_i hs0 hmeta hchosen hml hlen
            simp only [Prod.mk.injEq, Option.some.injEq] at h
            obtain ⟨hn, -⟩ := h
            subst hn
            refine ⟨hs0, rfl, ?_, ?_, hlen⟩
            · exact Bool.of_not_eq_true hmeta
            · exact Bool.of_not_eq_true hml

/-- Inversion of a sanitize rejection on the acceptance side: a none
reason with a some payload fixes the payload shape (used to rule out
reject branches). -/
theorem sanitize_reason_of_claimRejectable (s : List Char)
    (h : claimRejectable s) :
    ¬ (sanitize_subcategory_name (some s)).2 = none := by
  intro hnone
  rcases hr : sanitize_subcategory_name (some s) with ⟨cl, reason⟩
  rw [hr] at hnone
  simp only at hnone
  subst hnone
  cases cl with
  | none =>
    simp only [sanitize_subcategory_name] at hr
    split at hr
    · simp at hr
    · split at hr
      · simp at hr
      · split at hr
        · simp at hr
        · split at hr
          · simp at hr
          · split at hr
            · simp at hr
            · simp at hr
  | some n =>
    obtain ⟨hs0, hn, hmeta, hml, hlen⟩ := sanitize_accept_inv s n hr
    subst hn
    rcases h with h | h | h | h | ⟨p, hp, hst⟩
    · exact hs0 h
    · rw [h] at hml
      simp at hml
    · rw [h] at hml
      simp at hml
    · exact hlen h
    · have := List.any_eq_false.mp hmeta p hp
      rw [hst] at this
      exact this rfl

/-- C4: a parsed Tier-2 subcategory that is blank, or whose normalized
form is multi-line, longer than 80 characters, or begins with a meta
prefix, is rejected by the sanitizer; a rejection on the first attempt
makes the labeler issue exactly one retry (two model calls in total);
if the retry's subcategory is rejected as well, the labeler returns the
validated Tier-1 category with no subcategory; any subcategory the
labeler does return passed the sanitizer, so it never begins with a meta
prefix; and on the literal scenario response (Financial then a
Note: chosen categories match line, twice) the result is category
Financial with a null subcategory after two calls. -/
theorem c4_subcategory_reject_retry :
    (∀ s : List Char, claimRejectable s →
      ¬ (sanitize_subcategory_name (some s)).2 = none)
    ∧ (∀ (opts : Option (List (String × List String))) (raw0 raw1 c0 s0 : String),
        parse_multiline_label_response opts raw0 = some (c0, some s0) →
        c0 ∈ TIER1_CATEGORIES →
        ¬ (sanitize_subcategory_name (some s0.data)).2 = none →
        (ollama_label opts raw0 raw1).2 = 2
        ∧ (∀ (c1 s1 : String),
            parse_multiline_label_response opts raw1 = some (c1, some s1) →
            c1 ∈ TIER1_CATEGORIES →
            ¬ (sanitize_subcategory_name (some s1.data)).2 = none →
            (ollama_label opts raw0 raw1).1
              = some { category := c1, subcategory := none }))
    ∧ (∀ (opts : Option (List (String × List String))) (raw0 raw1 : String)
        (r : LabelResult) (s : String),
        (ollama_label opts raw0 raw1).1 = some r → r.subcategory = some s →
        ∀ p ∈ forbiddenSubPres, listStarts p (lowerStr s.data) = false)
    ∧ (ollama_label none "Financial\nNote: chosen categories match"
        "Financial\nNote: chosen categories match"
        = (some { category := "Financial", subcategory := none }, 2)) := by
  have hsecond : ∀ (opts : Option (List (String × List String)))
      (raw0 raw1 c0 s0 : String),
      parse_multiline_label_response opts raw0 = some (c0, some s0) →
      c0 ∈ TIER1_CATEGORIES →
      ¬ (sanitize_subcategory_name (some s0.data)).2 = none →
      ollama_label opts raw0 raw1 =
        (match parse_multiline_label_response opts raw1 with
         | none => (none, 2)
         | some (c1, sub1) =>
           match validate_tier1_category c1 with
           | none => (none, 2)
           | some c1v =>
             match sanitize_subcategory_name (sub1.map String.data) with
             | (cleaned1, none) =>
               (some { category := c1v, subcategory := cleaned1.map String.mk }, 2)
             | (_, some _) =>
               (some { category := c1v, subcategory := none }, 2)) := by
    intro opts raw0 raw1 c0 s0 hp hmem hrej
    have hval : validate_tier1_category c0 = some c0 := by
      simp [validate_tier1_category, hmem]
    simp only [ollama_label, hp, hval, Option.map_some']
    rcases hs : sanitize_subcategory_name (some s0.data) with ⟨cl, rs⟩
    cases rs with
    | none => exact absurd (by rw [hs]) hrej
    | some r0 => rfl
  refine ⟨sanitize_reason_of_claimRejectable, ?_, ?_, by decide⟩
  · intro opts raw0 raw1 c0 s0 hp hmem hrej
    rw [hsecond opts raw0 raw1 c0 s0 hp hmem hrej]
    constructor
    · split
      · rfl
      · split
        · rfl
        · split
          · rfl
          · rfl
    · intro c1 s1 hp1 hmem1 hrej1
      have hval1 : validate_tier1_category c1 = some c1 := by
        simp [validate_tier1_category, hmem1]
      rcases hs1 : sanitize_subcategory_name (some s1.data) with ⟨cl1, rs1⟩
      cases rs1 with
      | none => exact absurd (by rw [hs1]) hrej1
      | some r1 => simp only [hp1, hval1, Option.map_some', hs1]
  · intro opts raw0 raw1 r s hres hsub p hp
    have finish : ∀ (cand : Option String) (cl : Option (List Char)),
        sanitize_subcategory_name (cand.map String.data) = (cl, none) →
        cl.map String.mk = some s → listStarts p (lowerStr s.data) = false := by
      intro cand cl hsan hcl
      cases cl with
      | none => simp at hcl
      | some n =>
        simp only [Option.map_some', Option.some.injEq] at hcl
        cases cand with
        | none => simp [sanitize_subcategory_name] at hsan
        | some c1 =>
          have hmeta := (sanitize_accept_inv c1.data n
            (by simpa using hsan)).2.2.1
          have hpt := List.any_eq_false.mp hmeta p hp
          rw [← hcl]
          exact Bool.of_not_eq_true hpt
    simp only [ollama_label] at hres
    split at hres
    · simp at hres
    · split at hres
      · simp at hres
      · split at hres
        · rename_i cleaned0 heq0
          simp only [Option.some.injEq] at hres
          subst hres
          exact finish _ _ heq0 hsub
        · split at hres
          · simp at hres
          · split at hres
            · simp at hres
            · split at hres
              · rename_i cleaned1 heq1
                simp only [Option.some.injEq] at hres
                subst hres
                exact finish _ _ heq1 hsub
              · simp only [Option.some.injEq] at hres
                subst hres
                simp at hsub

/-- C4 witness: the flow conjunct at the literal scenario: both attempts
parse to Financial with the meta note line as subcategory, the sanitizer
rejects it, and the labeler makes two calls and returns Financial with
no subcategory. -/
theorem c4_subcategory_reject_retry_witness :
    (ollama_label none "Financial\nNote: chosen categories match"
      "Financial\nNote: chosen categories match").2 = 2
    ∧ (ollama_label none "Financial\nNote: chosen categories match"
        "Financial\nNote: chosen categories match").1
      = some { category := "Financial", subcategory := none } := by
  obtain ⟨hcalls, hfall⟩ := c4_subcategory_reject_retry.2.1 none
    "Financial\nNote: chosen categories match"
    "Financial\nNote: chosen categories match"
    "Financial" "Note: chosen categories match" (by decide) (by decide) (by decide)
  exact ⟨hcalls, hfall "Financial" "Note: chosen categories match"
    (by decide) (by decide) (by decide)⟩

/-- C3 counterexample: the bulk cluster_and_label write path labels the
messages of the cluster and the cluster row, but writes no
message-to-label assignment and enqueues no label-push outbox row: after
labeling the one-message cluster, the assignment table and the outbox
are still empty, refuting the claim that every message in the cluster
has an upserted assignment and an enqueued outbox row. -/
theorem c3_counterexample :
    ((bulk_persist_labeling dbOneUnlabelled ["g1"] "c-1" "Financial" none "v1").1.emails
      = [{ mkEmailRow 1 "g1" with
           category := some "Financial", subcategory := none
           label_confidence := none, label_version := some "v1"
           cluster_id := some "c-1" }])
    ∧ (bulk_persist_labeling dbOneUnlabelled ["g1"] "c-1" "Financial" none "v1").1.assignments
      = []
    ∧ (bulk_persist_labeling dbOneUnlabelled ["g1"] "c-1" "Financial" none "v1").1.label_outbox
      = [] := by
  decide

/-- C3 amended: the bulk pipeline's persistence block never touches the
assignment table or the label-push outbox (for any database and any
cluster); assignments and outbox rows are written only by the
per-message incremental pipeline through
upsert_message_taxonomy_assignment, which, when the message and the
taxonomy label resolve, leaves the message with exactly the one new
assignment row, preserves other messages assignments, and ensures an
unprocessed outbox row exists, enqueueing exactly one new row when the
message lacked one and enqueueing nothing when it already had one. -/
theorem c3_assignment_outbox_write_path :
    (∀ (db : Db) (gmail_ids : List String) (cid cat : String) (sub : Option String)
      (ver : String),
      (bulk_persist_labeling db gmail_ids cid cat sub ver).1.assignments = db.assignments
      ∧ (bulk_persist_labeling db gmail_ids cid cat sub ver).1.label_outbox = db.label_outbox)
    ∧ (∀ (db : Db) (gid cat : String) (sub : Option String) (conf : Option Int)
        (now : Nat) (msg : EmailRow) (tid : Nat),
      db.emails.find? (fun r => decide (r.gmail_message_id = some gid)) = some msg →
      resolveAssignmentLabelId db cat sub = some tid →
      (({ message_id := msg.id, taxonomy_label_id := tid, assigned_at := now
          confidence := conf } : TaxonomyAssignment)
        ∈ (upsert_message_taxonomy_assignment db gid cat sub conf now).assignments)
      ∧ (∀ a ∈ (upsert_message_taxonomy_assignment db gid cat sub conf now).assignments,
          a.message_id = msg.id →
          a = { message_id := msg.id, taxonomy_label_id := tid, assigned_at := now
                confidence := conf })
      ∧ (∀ a ∈ db.assignments, ¬ a.message_id = msg.id →
          a ∈ (upsert_message_taxonomy_assignment db gid cat sub conf now).assignments)
      ∧ (∃ o ∈ (upsert_message_taxonomy_assignment db gid cat sub conf now).label_outbox,
          o.message_id = msg.id ∧ o.processed_at = none)
      ∧ ((¬ ∃ o ∈ db.label_outbox, o.message_id = msg.id ∧ o.processed_at = none) →
          (upsert_message_taxonomy_assignment db gid cat sub conf now).label_outbox
            = db.label_outbox
              ++ [{ message_id := msg.id, reason := "label_assigned",
                    created_at := now, processed_at := none, error := none }])
      ∧ ((∃ o ∈ db.label_outbox, o.message_id = msg.id ∧ o.processed_at = none) →
          (upsert_message_taxonomy_assignment db gid cat sub conf now).label_outbox
            = db.label_outbox)) := by
  constructor
  · intro db gmail_ids cid cat sub ver
    exact ⟨rfl, rfl⟩
  · intro db gid cat sub conf now msg tid hfind hres
    have hdb : upsert_message_taxonomy_assignment db gid cat sub conf now =
        { db with
          assignments :=
            (db.assignments.filter (fun a => ¬ a.message_id = msg.id))
              ++ [{ message_id := msg.id, taxonomy_label_id := tid,
                    assigned_at := now, confidence := conf }]
          label_outbox :=
            if ∃ o ∈ db.label_outbox, o.message_id = msg.id ∧ o.processed_at = none then
              db.label_outbox
            else
              db.label_outbox
                ++ [{ message_id := msg.id, reason := "label_assigned",
                      created_at := now, processed_at := none, error := none }] } := by
      unfold upsert_message_taxonomy_assignment
      rw [hfind, hres]
    rw [hdb]
    refine ⟨?_, ?_, ?_, ?_, ?_, ?_⟩
    · exact List.mem_append_right _ (List.mem_singleton.mpr rfl)
    · intro a ha hmid
      rcases List.mem_append.mp ha with hf | hs
      · exfalso
        have := of_decide_eq_true (List.mem_filter.mp hf).2
        exact this hmid
      · exact List.mem_singleton.mp hs
    · intro a ha hne
      exact List.mem_append_left _
        (List.mem_filter.mpr ⟨ha, decide_eq_true hne⟩)
    · by_cases hp : ∃ o ∈ db.label_outbox, o.message_id = msg.id ∧ o.processed_at = none
      · rw [if_pos hp]
        exact hp
      · rw [if_neg hp]
        exact ⟨_, List.mem_append_right _ (List.mem_singleton.mpr rfl), rfl, rfl⟩
    · intro hp
      rw [if_neg hp]
    · intro hp
      rw [if_pos hp]

/-- C3 witness: the incremental write path applied to the concrete
one-message fixture: the assignment row for the message appears. -/
theorem c3_assignment_outbox_write_path_witness :
    ({ message_id := 1, taxonomy_label_id := 10, assigned_at := 500
       confidence := none } : TaxonomyAssignment)
      ∈ (upsert_message_taxonomy_assignment dbOneUnlabelled "g1" "Financial"
          none none 500).assignments :=
  ((c3_assignment_outbox_write_path.2 dbOneUnlabelled "g1" "Financial" none none 500
    (mkEmailRow 1 "g1") 10 (by decide) (by decide)).1)

/-- C5: retention planning enqueues exactly the eligible messages
(archived_at NULL, provider id present, some assigned label whose
effective COALESCE(label, parent, default) retention has elapsed): every
eligible message is planned, every planned id comes from an eligible
message, every planned id ends with a pending outbox row stamped at now
with processed_at and error reset to NULL (whether its previous row was
pending, processed, or failed), rows of unplanned messages are
untouched, and UNIQUE(message_id) is preserved. -/
theorem c5_retention_planning (db : Db) (dd now : Nat) :
    (∀ m ∈ db.emails, archive_eligible db dd now m →
      m.id ∈ (plan_archive_outbox db dd now).2)
    ∧ (∀ i ∈ (plan_archive_outbox db dd now).2,
        ∃ m ∈ db.emails, m.id = i ∧ archive_eligible db dd now m)
    ∧ (∀ i ∈ (plan_archive_outbox db dd now).2,
        ∃ r ∈ (plan_archive_outbox db dd now).1.archive_outbox,
          r.message_id = i ∧ r.created_at = now ∧ r.processed_at = none
          ∧ r.error = none)
    ∧ (∀ r ∈ (plan_archive_outbox db dd now).1.archive_outbox,
        ¬ r.message_id ∈ (plan_archive_outbox db dd now).2 → r ∈ db.archive_outbox)
    ∧ ((db.archive_outbox.map (fun r => r.message_id)).Nodup →
        ((plan_archive_outbox db dd now).1.archive_outbox.map
          (fun r => r.message_id)).Nodup) := by
  refine ⟨?_, ?_, ?_, ?_, ?_⟩
  · intro m hm he
    exact List.mem_dedup.mpr
      (List.mem_map.mpr ⟨m, List.mem_filter.mpr ⟨hm, decide_eq_true he⟩, rfl⟩)
  · intro i hi
    obtain ⟨m, hmf, hmi⟩ := List.mem_map.mp (List.mem_dedup.mp hi)
    obtain ⟨hm, hdec⟩ := List.mem_filter.mp hmf
    exact ⟨m, hm, hmi, of_decide_eq_true hdec⟩
  · intro i hi
    by_cases hex : i ∈ db.archive_outbox.map (fun r => r.message_id)
    · obtain ⟨r0, hr0, hid⟩ := List.mem_map.mp hex
      refine ⟨{ r0 with created_at := now, processed_at := none, error := none },
        List.mem_append_left _ (List.mem_map.mpr ⟨r0, hr0, ?_⟩), hid, rfl, rfl, rfl⟩
      rw [if_pos (by rw [hid]; exact hi)]
    · refine ⟨{ message_id := i, reason := "retention_eligible", created_at := now
                processed_at := none, error := none },
        List.mem_append_right _ (List.mem_map.mpr ⟨i,
          List.mem_filter.mpr ⟨hi, decide_eq_true hex⟩, rfl⟩), rfl, rfl, rfl, rfl⟩
  · intro r hr hnot
    have h2eq : (plan_archive_outbox db dd now).2
        = ((db.emails.filter
            (fun m => decide (archive_eligible db dd now m))).map
              (fun m => m.id)).dedup := rfl
    rw [h2eq] at hnot
    rcases List.mem_append.mp hr with hrs | hrf
    · obtain ⟨r0, hr0, heq⟩ := List.mem_map.mp hrs
      by_cases hin : r0.message_id
          ∈ ((db.emails.filter
              (fun m => decide (archive_eligible db dd now m))).map
                (fun m => m.id)).dedup
      · exfalso
        rw [if_pos hin] at heq
        apply hnot
        rw [← heq]
        exact hin
      · rw [if_neg hin] at heq
        rw [← heq]
        exact hr0
    · exfalso
      obtain ⟨i, hif, heq⟩ := List.mem_map.mp hrf
      have hi := (List.mem_filter.mp hif).1
      apply hnot
      rw [← heq]
      exact hi
  · intro hnd
    have hres : ((plan_archive_outbox db dd now).1.archive_outbox.map
        (fun r => r.message_id))
        = db.archive_outbox.map (fun r => r.message_id)
          ++ ((plan_archive_outbox db dd now).2.filter
            (fun i => decide (¬ i ∈ db.archive_outbox.map (fun r => r.message_id)))) := by
      show (List.map _ (_ ++ _)) = _
      rw [List.map_append, List.map_map, List.map_map]
      congr 1
      · apply List.map_congr_left
        intro a _
        simp only [Function.comp_apply]
        split <;> rfl
      · exact List.map_id _
    rw [hres]
    refine List.Nodup.append hnd
      (List.Nodup.filter _ (List.nodup_dedup _)) ?_
    intro x hx1 hx2
    exact absurd hx1 (of_decide_eq_true (List.mem_filter.mp hx2).2)

/-- C5 witness: the planning theorem at the concrete fixture: the old
labelled message is planned and uniqueness of the outbox keys holds. -/
theorem c5_retention_planning_witness :
    (1 ∈ (plan_archive_outbox dbRetention 730 172900).2)
    ∧ ((plan_archive_outbox dbRetention 730 172900).1.archive_outbox.map
        (fun r => r.message_id)).Nodup :=
  ⟨(c5_retention_planning dbRetention 730 172900).1 (mkEmailRow 1 "g1")
      (by decide) (by decide),
    (c5_retention_planning dbRetention 730 172900).2.2.2.2 (by decide)⟩

/-- C1 counterexample: with two fetched messages, the first failing at
the vector step (timestamp 100) and the second fully succeeding
(timestamp 200), the run ends with checkpoint 200, which is at least the
first message's timestamp, yet the first message was never upserted into
the vector index (its row upsert did succeed, so it sits in the message
store only). This refutes the claimed consequence that checkpoint at or
above a seen message's timestamp implies presence in both stores. -/
theorem c1_counterexample :
    ((ingest_metadata none [] []
      [⟨"m1", 100, .vectorFail⟩, ⟨"m2", 200, .ok⟩]).checkpoint = some 200)
    ∧ 100 ≤ 200
    ∧ ("m1" ∈ (ingest_metadata none [] []
      [⟨"m1", 100, .vectorFail⟩, ⟨"m2", 200, .ok⟩]).store)
    ∧ ¬ ("m1" ∈ (ingest_metadata none [] []
      [⟨"m1", 100, .vectorFail⟩, ⟨"m2", 200, .ok⟩]).vec) := by
  decide

/-- C1 amended: the persisted checkpoint changes in an iteration only when
that message's insert, embedding, vector and upsert steps all succeeded
(and then it is set to that message's internal date, which strictly
exceeds the previous watermark); across a run the checkpoint only ever
advances; and every message the run processed successfully (not skipped,
no step failed) is persisted in both the message store and the vector
index with the final checkpoint at or above its timestamp. Failed
messages are only counted: a later success may advance the checkpoint
past a failed message's timestamp without that message being persisted. -/
theorem c1_checkpoint_soundness :
    (∀ (cp0 : Option Nat) (st : IngestState) (m : IngestMsg),
      (ingest_step cp0 st m).checkpoint ≠ st.checkpoint →
      m.outcome = .ok ∧ skipAlready cp0 m.internal_date = false
      ∧ (ingest_step cp0 st m).checkpoint = some m.internal_date
      ∧ m.gmail_id ∈ (ingest_step cp0 st m).store
      ∧ m.gmail_id ∈ (ingest_step cp0 st m).vec)
    ∧ (∀ (cp0 : Option Nat) (store0 vec0 : List String) (msgs : List IngestMsg),
      cpAdvanced cp0 (ingest_metadata cp0 store0 vec0 msgs).checkpoint)
    ∧ (∀ (cp0 : Option Nat) (store0 vec0 : List String) (msgs : List IngestMsg)
        (m : IngestMsg), m ∈ msgs → m.outcome = .ok →
        skipAlready cp0 m.internal_date = false →
        m.gmail_id ∈ (ingest_metadata cp0 store0 vec0 msgs).store
        ∧ m.gmail_id ∈ (ingest_metadata cp0 store0 vec0 msgs).vec
        ∧ ∃ y, (ingest_metadata cp0 store0 vec0 msgs).checkpoint = some y
            ∧ m.internal_date ≤ y) := by
  refine ⟨?_, ?_, ?_⟩
  · intro cp0 st m hne
    obtain ⟨g, t, o⟩ := m
    cases o
    case fetchFail => exact absurd rfl hne
    case insertFail =>
      simp only [ingest_step] at hne
      split at hne <;> exact absurd rfl hne
    case embedFail =>
      simp only [ingest_step] at hne
      split at hne <;> exact absurd rfl hne
    case vectorFail =>
      simp only [ingest_step] at hne
      split at hne <;> exact absurd rfl hne
    case upsertFail =>
      simp only [ingest_step] at hne
      split at hne <;> exact absurd rfl hne
    case ok =>
      by_cases hskip : skipAlready cp0 t = true
      · simp [ingest_step, hskip] at hne
      · simp only [Bool.not_eq_true] at hskip
        simp only [ingest_step, hskip, Bool.false_eq_true, if_false] at hne ⊢
        refine ⟨trivial, trivial, ?_, keyUpsert_self g st.store, keyUpsert_self g st.vec⟩
        revert hne
        rcases st.checkpoint with _ | a <;> intro hne
        · rfl
        · by_cases hat : a < t
          · show (if a < t then some t else some a) = some t
            rw [if_pos hat]
          · exfalso
            apply hne
            show (if a < t then some t else some a) = some a
            rw [if_neg hat]
  · intro cp0 store0 vec0 msgs
    exact ingest_fold_cp_mono msgs cp0
      { store := store0, vec := vec0, checkpoint := cp0
        processed := 0, skipped := 0, failed := 0 }
  · intro cp0 store0 vec0 msgs m hm ho hs
    exact ingest_fold_persists msgs cp0
      { store := store0, vec := vec0, checkpoint := cp0
        processed := 0, skipped := 0, failed := 0 } m hm ho hs

/-- C1 witness: the run-level persistence conjunct applied to a one-message
run that fully succeeds. -/
theorem c1_checkpoint_soundness_witness :
    "m2" ∈ (ingest_metadata none [] [] [⟨"m2", 200, .ok⟩]).store
    ∧ "m2" ∈ (ingest_metadata none [] [] [⟨"m2", 200, .ok⟩]).vec
    ∧ ∃ y, (ingest_metadata none [] [] [⟨"m2", 200, .ok⟩]).checkpoint = some y
        ∧ 200 ≤ y :=
  c1_checkpoint_soundness.2.2 none [] [] [⟨"m2", 200, .ok⟩] ⟨"m2", 200, .ok⟩
    (by decide) (by decide) (by decide)

/-- C6: cluster-id generation is a pure function of (seed id, threshold,
labeler version): calling it twice yields identical ids; the id is
uuid-v5 of the URL namespace applied to the key built as cluster colon
seed colon threshold colon version (threshold 0.85 and version v1 give
the key cluster:seed:0.85:v1); and the bulk and per-message pipelines
compute the same id for the same inputs. -/
theorem c6_cluster_id_deterministic :
    (∀ (u : String → String) (s t v : String),
      cluster_id_bulk u s t v = cluster_id_bulk u s t v)
    ∧ (∀ (u : String → String) (s t v : String),
      cluster_id_bulk u s t v = cluster_id_incremental u s t v)
    ∧ (∀ (u : String → String) (s : String),
      cluster_id_bulk u s "0.85" "v1"
        = u ("cluster:" ++ s ++ ":" ++ "0.85" ++ ":" ++ "v1"))
    ∧ (∀ (u : String → String),
      cluster_id_bulk u "seed123" "0.85" "v1" = u "cluster:seed123:0.85:v1") :=
  ⟨fun _ _ _ _ => rfl, fun _ _ _ _ => rfl, fun _ _ => rfl,
    fun u => congrArg u (by decide)⟩

/-- C7: the payment fingerprint is normalized vendor, two-decimal amount,
currency and ISO date joined with pipes; the two concrete extractions of
the claim (Acme Ltd with a pound amount, acme ltd. with a decimal-comma
amount) both fingerprint to acmeltd|12.34|GBP|2025-03-02; and inputs with
equal normalized vendor keys and equal quantized amounts give equal
fingerprints. -/
theorem c7_payment_fingerprint :
    (compute_fingerprint (some "Acme Ltd") (parse_amount (some "£12.34"))
        (some "GBP") (some "2025-03-02") = some "acmeltd|12.34|GBP|2025-03-02")
    ∧ (compute_fingerprint (some "acme ltd.") (parse_amount (some "12,34 GBP"))
        (some "GBP") (some "2025-03-02") = some "acmeltd|12.34|GBP|2025-03-02")
    ∧ (∀ (v v' : String) (a a' : PyDec) (c d : String),
        normalize_vendor_key (some v) = normalize_vendor_key (some v') →
        quantize2Cents a = quantize2Cents a' →
        compute_fingerprint (some v) (some a) (some c) (some d)
          = compute_fingerprint (some v') (some a') (some c) (some d)) := by
  refine ⟨by decide, by decide, ?_⟩
  intro v v' a a' c d hv ha
  simp only [compute_fingerprint]
  by_cases hc : c = ""
  · simp [hc]
  · by_cases hve : v = ""
    · have h1 : normalize_vendor_key (some v) = none := by simp [normalize_vendor_key, hve]
      have h2 : normalize_vendor_key (some v') = none := by rw [← hv]; exact h1
      by_cases hve' : v' = ""
      · simp [hve, hve', hc]
      · simp [hve, hve', hc, h2]
    · by_cases hve' : v' = ""
      · have h2 : normalize_vendor_key (some v') = none := by simp [normalize_vendor_key, hve']
        have h1 : normalize_vendor_key (some v) = none := by rw [hv]; exact h2
        simp [hve, hve', hc, h1]
      · simp [hve, hve', hc, hv, ha]

/-- C7 witness: the congruence conjunct applied at the two concrete vendor
spellings and the shared quantized amount. -/
theorem c7_payment_fingerprint_witness :
    compute_fingerprint (some "Acme Ltd") (some ⟨1234, 2⟩) (some "GBP") (some "2025-03-02")
      = compute_fingerprint (some "acme ltd.") (some ⟨1234, 2⟩) (some "GBP") (some "2025-03-02") :=
  c7_payment_fingerprint.2.2 "Acme Ltd" "acme ltd." ⟨1234, 2⟩ ⟨1234, 2⟩
    "GBP" "2025-03-02" (by decide) (by decide)

/-- C8 counterexample: the claim says a cluster of size 5 gets exactly one
body sample, but sample_count 5 evaluates to 2 (the code branch is
5 le n le 10, tested after 10 le n le 50, so size 5 falls in the
two-sample branch and size 10 in the three-sample branch). -/
theorem c8_counterexample : ¬ (sample_count 5 = 1 ∧ sample_count 10 = 2) := by decide

/-- C8 amended: the number of body samples is exactly 1 for sizes up to 4,
2 for sizes 5 to 9, 3 for sizes 10 to 50, and 4 above 50. -/
theorem c8_sample_count_cases (n : Nat) :
    sample_count n =
      if 50 < n then 4 else if 10 ≤ n then 3 else if 5 ≤ n then 2 else 1 := by
  unfold sample_count
  by_cases h50 : 50 < n
  · simp [h50]
  · by_cases h10 : 10 ≤ n
    · have hle : n ≤ 50 := by omega
      simp [h50, h10, hle]
    · by_cases h5 : 5 ≤ n
      · have hle : n ≤ 10 := by omega
        simp [h50, h10, h5, hle]
      · simp [h50, h10, h5]

/-- C9 counterexample: subject normalization strips only the first stacked
prefix (the regex is anchored at the string start and re.sub cannot
re-match the anchor), so normalize_subject of Re: Fwd: Hello is
fwd: hello, not hello. -/
theorem c9_counterexample :
    ¬ (normalize_subject (some "Re: Fwd: Hello") = normalize_subject (some "hello")) := by
  decide

/-- C9 amended: normalization strips exactly one leading reply/forward
marker: Re: Fwd: Hello normalizes to fwd: hello, a single marker is
removed (Re: Hello and Fwd: Hello both normalize like hello), and the
result is lower-cased. -/
theorem c9_single_marker_stripped :
    normalize_subject (some "Re: Fwd: Hello") = some "fwd: hello"
    ∧ normalize_subject (some "Re: Hello") = normalize_subject (some "hello")
    ∧ normalize_subject (some "Fwd: Hello") = some "hello"
    ∧ normalize_subject (some "hello") = some "hello" := by
  decide

end EmailIntel
